import Mathlib

/-!
Verification development for the experiment/trial lifecycle and persistence
engine of the ImageMLReasearch repository (`src/experimenting`).

The Python modules are shallowly embedded: dictionaries become association
lists preserving insertion order, JSON documents become a `JVal` tree,
in-place mutation of the experiment's trial list and of the filesystem is
made explicit by passing the list and a path-indexed store through the
operations, and raised exceptions become an `error?` field of the result
(the state carried alongside the error is the state at the moment the
exception is raised, as in Python).

Helpers that the modules import but whose sources are not part of the
repository snapshot (`get_datetime`/`get_duration`, `transform_figures_to_files`,
`HParamsSuggester`) are modelled from the spec; each such definition carries a
doc comment saying so.
-/

namespace ImageML

/-- Python `dict` with string keys, as an insertion-ordered association list. -/
abbrev Dict (V : Type) := List (String × V)

/-- `d[k]` lookup: the first binding of `k`, if any. -/
def dictGet? {V : Type} (d : Dict V) (k : String) : Option V :=
  match d with
  | [] => none
  | (k', v) :: rest => if k' = k then some v else dictGet? rest k

/-- `d[k] = v` update: replaces the first binding of `k`, or appends one. -/
def dictSet {V : Type} (d : Dict V) (k : String) (v : V) : Dict V :=
  match d with
  | [] => [(k, v)]
  | (k', v') :: rest => if k' = k then (k, v) :: rest else (k', v') :: dictSet rest k v

/-- JSON values, the interchange format written by `json.dump`. -/
inductive JVal : Type where
  | null : JVal
  | bool (b : Bool) : JVal
  | num (q : ℚ) : JVal
  | str (s : String) : JVal
  | arr (xs : List JVal) : JVal
  | obj (fields : List (String × JVal)) : JVal

/-- Atomic Python values that may appear as hyperparameter values.  A
`func` value stands for a function object (or any other value `json.dump`
rejects with a `TypeError`). -/
inductive PyLeaf : Type where
  | pynone : PyLeaf
  | pybool (b : Bool) : PyLeaf
  | pyint (n : Int) : PyLeaf
  | pystr (s : String) : PyLeaf
  | func (fid : Nat) : PyLeaf
deriving DecidableEq

/-- JSON serialization of one atomic value; `none` models the `TypeError`
raised by `json.dump` on a function object. -/
def pyLeafToJson? : PyLeaf → Option JVal
  | .pynone => some .null
  | .pybool b => some (.bool b)
  | .pyint n => some (.num (n : ℚ))
  | .pystr s => some (.str s)
  | .func _ => none

/-- JSON serialization of the `hyperparameters` slot (`None` or a dict);
fails iff some value in the dict is unserializable. -/
def hyperparametersToJson? : Option (Dict PyLeaf) → Option JVal
  | none => some .null
  | some d =>
    (d.mapM (fun kv => (pyLeafToJson? kv.2).map (fun j => (kv.1, j)))).map .obj

/-- Exceptions raised by code outside the experimenting package and
propagated through a `with` scope. -/
structure PyExc : Type where
  ty : String
  msg : String
deriving DecidableEq

/-- Exceptions raised by the experimenting package itself. -/
inductive PyError : Type where
  | keyError (k : String) : PyError
  | typeError (msg : String) : PyError
  | valueError (msg : String) : PyError
  | assertionError (msg : String) : PyError
  | reraised (f : PyExc) : PyError
  | experimentError (msg : String) (cause : PyExc) : PyError
deriving DecidableEq

deriving instance DecidableEq for Except

/-- The warnings `warnings.warn` can emit in this package. -/
inductive WarnTag : Type where
  | skipAlreadyRun : WarnTag
  | noResults : WarnTag
  | overwriting : WarnTag
  | unserializableHparams : WarnTag
  | ignoredKey (k : String) : WarnTag
deriving DecidableEq

/-- Modelled from the spec: `get_duration` (imported from a datetime helper
module not present in the snapshot) computes `duration = now - start_time`.
Timestamps are modelled as natural numbers. -/
def getDuration (start now : Nat) : Nat := now - start

/-- The `trial_data` dictionary built by `Trial._init_trial_data`
(src/experimenting/helpers/trial.py lines 102-111).  Python key insertion
order is: name, start_time, duration, directory, hyperparameters, figures,
evaluation_metrics, training_history.  There is no `description` key. -/
structure TrialData : Type where
  name : String
  start_time : Option Nat
  duration : Option Nat
  directory : String
  hyperparameters : Option (Dict PyLeaf)
  figures : Option (Dict String)
  evaluation_metrics : Option (Dict ℚ)
  training_history : Option (Dict (List ℚ))
deriving DecidableEq

/-- JSON encoding of an optional timestamp slot. -/
def jOptNat : Option Nat → JVal
  | none => .null
  | some n => .num (n : ℚ)

/-- JSON encoding of the `figures` slot (figure name → file path). -/
def jOptStrDict : Option (Dict String) → JVal
  | none => .null
  | some d => .obj (d.map (fun kv => (kv.1, .str kv.2)))

/-- JSON encoding of the `evaluation_metrics` slot. -/
def jOptRatDict : Option (Dict ℚ) → JVal
  | none => .null
  | some d => .obj (d.map (fun kv => (kv.1, .num kv.2)))

/-- JSON encoding of the `training_history` slot. -/
def jOptHistDict : Option (Dict (List ℚ)) → JVal
  | none => .null
  | some d => .obj (d.map (fun kv => (kv.1, .arr (kv.2.map .num))))

/-- The JSON document `json.dump(trial_data, ...)` produces, given the JSON
encoding `hp` of the hyperparameters slot.  All `trial_data` keys are dumped,
`training_history` included: the `# Remove history` comment in
`Trial._write_trial_data` is not followed by any `pop`. -/
def trialDoc (t : TrialData) (hp : JVal) : Dict JVal :=
  [("name", .str t.name),
   ("start_time", jOptNat t.start_time),
   ("duration", jOptNat t.duration),
   ("directory", .str t.directory),
   ("hyperparameters", hp),
   ("figures", jOptStrDict t.figures),
   ("evaluation_metrics", jOptRatDict t.evaluation_metrics),
   ("training_history", jOptHistDict t.training_history)]

/-- Result of `Trial._write_trial_data`: the document written to
`trial_info.json` and whether the unserializable-hyperparameters warning
was emitted. -/
structure WriteOutcome : Type where
  doc : Dict JVal
  warned : Bool

/-- `Trial._write_trial_data` (trial.py lines 161-177): try to dump the whole
`trial_data` dict; on `TypeError` (unserializable hyperparameters) warn,
substitute `None` for the hyperparameters field and dump again. -/
def writeTrialData (t : TrialData) : WriteOutcome :=
  match hyperparametersToJson? t.hyperparameters with
  | some hj => { doc := trialDoc t hj, warned := false }
  | none => { doc := trialDoc t .null, warned := true }

/-- A value of the result-snapshot dictionary returned by
`Experiment.get_results`: the `figures` dict (figure objects modelled by
identifiers), the `evaluation_metrics` dict, or a `training_history` dict. -/
inductive ResVal : Type where
  | figures (d : Dict Nat) : ResVal
  | metrics (d : Dict ℚ) : ResVal
  | history (d : Dict (List ℚ)) : ResVal
deriving DecidableEq

/-- Python `value == {}` on a snapshot value. -/
def ResVal.isEmptyDict : ResVal → Bool
  | .figures d => d.isEmpty
  | .metrics d => d.isEmpty
  | .history d => d.isEmpty

/-- `Experiment.get_results` (experiment.py lines 131-143): the snapshot
handed to a closing trial.  It has exactly the two keys `figures` and
`evaluation_metrics`; there is no `training_history` key. -/
def getResults (figures : Dict Nat) (evaluationMetrics : Dict ℚ) : Dict ResVal :=
  [("figures", .figures figures), ("evaluation_metrics", .metrics evaluationMetrics)]

/-- Removes the first trial with the given name from the list, mirroring
`names.index(trial_name)` followed by `pop(index)`. -/
def removeFirstNamed (name : String) : List TrialData → List TrialData
  | [] => []
  | t :: ts => if t.name = name then ts else t :: removeFirstNamed name ts

/-- `Trial._remove_trial` (trial.py lines 153-159): raise `ValueError` if no
trial of that name is in the experiment's list, else pop the first one. -/
def removeTrial (name : String) (trials : List TrialData) :
    Except PyError (List TrialData) :=
  if name ∈ trials.map TrialData.name then .ok (removeFirstNamed name trials)
  else .error (.valueError "Trial not found in experiment trials.")

/-- Modelled from the spec: `transform_figures_to_files` (imported from
`src.utils`, source not present in the snapshot) saves each figure into the
trial directory and returns the mapping figure name → file path. -/
def transformFiguresToFiles (figs : Dict Nat) (directory : String) : Dict String :=
  figs.map (fun kv => (kv.1, directory ++ "/" ++ kv.1 ++ ".png"))

/-- Result of `Trial.__exit__`: the trial's own data, the parent experiment's
trial list, the filesystem (path → written `trial_info.json` document), the
warnings emitted, whether a file write happened, and the exception raised,
if any (the other fields hold the state at the moment of the raise). -/
structure TrialExitResult : Type where
  trialData : TrialData
  trials : List TrialData
  fs : Dict (Dict JVal)
  warnings : List WarnTag
  wrote : Bool
  error? : Option PyError

/-- `Trial.__exit__` (trial.py lines 179-229).  Inputs: the propagated
exception (if the scope exits abnormally), the close time, the trial's data,
the `already_runned` flag computed at construction, the result snapshot
returned by `fetch_trial_results` (i.e. `Experiment.get_results`), the
parent's trial list and the filesystem. -/
def trialExit (exc : Option PyExc) (now : Nat) (t0 : TrialData)
    (alreadyRunned : Bool) (snapshot : Dict ResVal)
    (trials : List TrialData) (fs : Dict (Dict JVal)) : TrialExitResult :=
  let t := { t0 with duration := some (getDuration (t0.start_time.getD 0) now) }
  match exc with
  | some f =>
    { trialData := t, trials := trials, fs := fs, warnings := [], wrote := false,
      error? := some (.reraised f) }
  | none =>
    let resultsEmpty := snapshot.all (fun kv => kv.2.isEmptyDict)
    if resultsEmpty && alreadyRunned then
      { trialData := t, trials := trials, fs := fs, warnings := [.skipAlreadyRun],
        wrote := false, error? := none }
    else if resultsEmpty then
      { trialData := t, trials := trials, fs := fs, warnings := [.noResults],
        wrote := false, error? := none }
    else
      let warns := if alreadyRunned then [WarnTag.overwriting] else []
      match (if alreadyRunned then removeTrial t.name trials else .ok trials) with
      | .error err =>
        { trialData := t, trials := trials, fs := fs, warnings := warns,
          wrote := false, error? := some err }
      | .ok trials' =>
        match dictGet? snapshot "figures" with
        | none =>
          { trialData := t, trials := trials', fs := fs, warnings := warns,
            wrote := false, error? := some (.keyError "figures") }
        | some figsV =>
          match figsV with
          | .figures figs =>
            match dictGet? snapshot "evaluation_metrics" with
            | none =>
              { trialData := t, trials := trials', fs := fs, warnings := warns,
                wrote := false, error? := some (.keyError "evaluation_metrics") }
            | some memV =>
              match memV with
              | .metrics ms =>
                let t1 := { t with
                  figures := some (transformFiguresToFiles figs t.directory),
                  evaluation_metrics := some ms }
                match dictGet? snapshot "training_history" with
                | none =>
                  { trialData := t1, trials := trials', fs := fs, warnings := warns,
                    wrote := false, error? := some (.keyError "training_history") }
                | some thV =>
                  match thV with
                  | .history th =>
                    let t2 := { t1 with training_history := some th }
                    let w := writeTrialData t2
                    let fs' := dictSet fs (t2.directory ++ "/trial_info.json") w.doc
                    { trialData := t2, trials := trials' ++ [t2], fs := fs',
                      warnings := warns ++
                        (if w.warned then [WarnTag.unserializableHparams] else []),
                      wrote := true, error? := none }
                  | _ =>
                    { trialData := t1, trials := trials', fs := fs, warnings := warns,
                      wrote := false,
                      error? := some (.typeError "training_history is not a dict") }
              | _ =>
                { trialData := t, trials := trials', fs := fs, warnings := warns,
                  wrote := false,
                  error? := some (.typeError "evaluation_metrics is not a dict") }
          | _ =>
            { trialData := t, trials := trials', fs := fs, warnings := warns,
              wrote := false, error? := some (.typeError "figures is not a dict") }

/-- `Trial._check_if_already_runned` (trial.py lines 131-134): membership of
the trial's name among the names currently in the parent's trial list. -/
def checkIfAlreadyRunned (name : String) (experimentTrials : List TrialData) : Bool :=
  name ∈ experimentTrials.map TrialData.name

/-- The `experiment_data` dictionary of `Experiment` (experiment.py lines
45-52). -/
structure ExperimentData : Type where
  name : String
  description : String
  start_time : Option Nat
  duration : Option Nat
  directory : String
  trials : List TrialData
deriving DecidableEq

/-- The document `Experiment._write_experiment_data` dumps to
`experiment_info.json` (experiment.py lines 73-86): a copy of
`experiment_data` with the `trials` key popped. -/
def expInfoDoc (e : ExperimentData) : Dict JVal :=
  [("name", .str e.name),
   ("description", .str e.description),
   ("start_time", jOptNat e.start_time),
   ("duration", jOptNat e.duration),
   ("directory", .str e.directory)]

/-- The sort key `x["evaluation_metrics"]["accuracy"]` of
`Experiment._sort_trials`: `TypeError` when the metrics slot is `None`
(not subscriptable), `KeyError` when the key is absent. -/
def accuracyKey (t : TrialData) : Except PyError ℚ :=
  match t.evaluation_metrics with
  | none => .error (.typeError "NoneType is not subscriptable")
  | some d =>
    match dictGet? d "accuracy" with
    | none => .error (.keyError "accuracy")
    | some q => .ok q

/-- CPython's `list.sort(key=...)` computes the key of every element first
(decorate); any key failure aborts before the list is mutated. -/
def decorateTrials : List TrialData → Except PyError (List (ℚ × TrialData))
  | [] => .ok []
  | t :: ts =>
    match accuracyKey t with
    | .error e => .error e
    | .ok q =>
      match decorateTrials ts with
      | .error e => .error e
      | .ok ds => .ok ((q, t) :: ds)

/-- The order used by `sort(key=..., reverse=True)`: descending on the
computed key. -/
def accDescRel (a b : ℚ × TrialData) : Prop := b.1 ≤ a.1

instance : DecidableRel accDescRel := fun a b => inferInstanceAs (Decidable (b.1 ≤ a.1))

/-- `Experiment._sort_trials` (experiment.py lines 98-104): skip an empty
list, else stably sort by the `accuracy` metric in descending order.
`list.sort` with `reverse=True` keeps equal-key elements in their original
order; `List.insertionSort` realizes that stable sort here. -/
def sortTrials (trials : List TrialData) : Except PyError (List TrialData) :=
  if trials = [] then .ok trials
  else
    (decorateTrials trials).map (fun d => (d.insertionSort accDescRel).map Prod.snd)

/-- `create_experiment_report` (create_experiment_report.py lines 7-58)
restricted to its observable effects.  It buffers the metadata block (the
experiment's own `name`, `description`, `start_time`, `directory`, all
present in `experiment_data`), then for each trial writes `trial["name"]`
and evaluates `trial["description"]` (line 29).  The `trial_data` dicts
built by `Trial._init_trial_data` (trial.py lines 102-111) contain no
`description` key and no later assignment inserts one, so the first trial
raises `KeyError("description")`; `MarkdownFileWriter` persists its buffer
only in `save_file` (line 58), so nothing is written when the loop raises.
With an empty trial list the loop body never runs and the report is
saved. -/
def createExperimentReport : List TrialData → Except PyError Unit
  | [] => .ok ()
  | _ :: _ => .error (.keyError "description")

/-- Result of `Experiment.__exit__`: the experiment data, the content of
`experiment_info.json` if it was written, whether the report file was
saved, and the exception raised, if any (the other fields hold the state at
the moment of the raise). -/
structure ExpExitResult : Type where
  expData : ExperimentData
  wroteInfo : Option (Dict JVal)
  reportCreated : Bool
  error? : Option PyError

/-- `Experiment.__exit__` (experiment.py lines 106-129): set the duration;
on an abnormal exit re-raise the fault wrapped in an `ExperimentError`
without writing anything; on a clean exit write `experiment_info.json`,
sort the trials (a key failure there aborts before the report) and run
`create_experiment_report` on the sorted collection (whose own failure
leaves the info file written and the list sorted, but saves no report). -/
def experimentExit (exc : Option PyExc) (now : Nat) (e0 : ExperimentData) :
    ExpExitResult :=
  let e := { e0 with duration := some (getDuration (e0.start_time.getD 0) now) }
  match exc with
  | some f =>
    { expData := e, wroteInfo := none, reportCreated := false,
      error? := some (.experimentError "An error occurred during the experiment." f) }
  | none =>
    let doc := expInfoDoc e
    match sortTrials e.trials with
    | .error err =>
      { expData := e, wroteInfo := some doc, reportCreated := false,
        error? := some err }
    | .ok sorted =>
      match createExperimentReport sorted with
      | .ok _ =>
        { expData := { e with trials := sorted }, wroteInfo := some doc,
          reportCreated := true, error? := none }
      | .error err =>
        { expData := { e with trials := sorted }, wroteInfo := some doc,
          reportCreated := false, error? := some err }

/-- `name.replace(" ", "_")`, written out on the character list (the pattern
is a single character, so `str.replace` is a character map). -/
def normalizeName (name : String) : String :=
  String.mk (name.data.map (fun c => if c = ' ' then '_' else c))

/-- `os.makedirs(path, exist_ok=True)` on a filesystem modelled as the list
of existing directories: creates the directory if absent, touches nothing
that exists. -/
def makedirsExistOk (fs : List String) (p : String) : List String :=
  if p ∈ fs then fs else p :: fs

/-- `Experiment._make_experiment_directory` (experiment.py lines 56-71)
together with its `os.makedirs(..., exist_ok=True)` side effect.  `base`
stands for `os.path.abspath(os.path.normpath(directory))`, itself a pure
function of the working directory and `directory`.  Returns the resolved
experiment directory and the updated filesystem. -/
def makeExperimentDirectoryFS (fs : List String) (base name : String) :
    String × List String :=
  let dir := base ++ "/" ++ normalizeName name
  (dir, makedirsExistOk fs dir)

/-- `Experiment.__init__` (experiment.py lines 18-54): resolves and creates
the experiment directory and initializes `experiment_data` with an empty
`trials` list (line 51).  `diskTrials` is the prior on-disk trial state
found under the directory; the constructor never reads it. -/
def experimentInit (fs : List String) (diskTrials : List TrialData)
    (base name description : String) : ExperimentData × List String :=
  let (dir, fs') := makeExperimentDirectoryFS fs base name
  ({ name := name, description := description, start_time := none,
     duration := none, directory := dir, trials := [] }, fs')

/-- Modelled from the spec: `HParamsSuggester` (its module is not part of
the snapshot) exposes `suggest_next() -> mapping`; it is modelled as a
stream of hyperparameter mappings with a cursor. -/
structure HParamsSuggester : Type where
  gen : Nat → Dict PyLeaf
  idx : Nat

/-- Modelled from the spec: `suggest_next` returns the next suggested
mapping and advances the stream. -/
def suggestNext (s : HParamsSuggester) : Dict PyLeaf × HParamsSuggester :=
  (s.gen s.idx, { s with idx := s.idx + 1 })

/-- One `{name, hyperparameters}` trial descriptor. -/
structure TrialDefinition : Type where
  name : String
  hyperparameters : Dict PyLeaf

/-- `_TrialsDefinitionsIterator` (load_definitions_of_experiment.py lines
8-49). -/
structure TrialsDefinitionsIterator : Type where
  suggester : HParamsSuggester
  numTrials : Nat
  pre : String
  trialCount : Nat

/-- `_TrialsDefinitionsIterator.__next__` (lines 34-49): `none` models
`StopIteration`; otherwise the descriptor is named `pre` followed by the
1-based count. -/
def iterNext (it : TrialsDefinitionsIterator) :
    Option (TrialDefinition × TrialsDefinitionsIterator) :=
  if it.trialCount = it.numTrials then none
  else
    let count := it.trialCount + 1
    let (hp, sugg) := suggestNext it.suggester
    some ({ name := it.pre ++ toString count, hyperparameters := hp },
          { it with trialCount := count, suggester := sugg })

/-- Drains up to `fuel` items from the iterator, stopping at exhaustion. -/
def iterTake : Nat → TrialsDefinitionsIterator → List TrialDefinition
  | 0, _ => []
  | fuel + 1, it =>
    match iterNext it with
    | none => []
    | some (d, it') => d :: iterTake fuel it'

/-- The iterator state after `k` calls to `__next__` (exhaustion is
absorbing). -/
def iterSteps : Nat → TrialsDefinitionsIterator → TrialsDefinitionsIterator
  | 0, it => it
  | k + 1, it =>
    match iterNext it with
    | none => it
    | some (_, it') => iterSteps k it'

/-- The generator-configuration shape of `trials_definitions`: the optional
`num_trials` and `prefix` keys, the mandatory `hparams_configs` key (modelled
as the stream it induces) and any remaining keys. -/
structure TrialsGenConfig : Type where
  numTrials? : Option Nat
  pre? : Option String
  hparamsConfigs? : Option (Nat → Dict PyLeaf)
  extraKeys : List String

/-- `_process_trials_definitions`, dict branch (lines 105-123): pop
`num_trials` (default 1), pop `prefix` (default `"trial_"`), require
`hparams_configs`, warn about every leftover key and build the iterator. -/
def processTrialsGenConfig (cfg : TrialsGenConfig) :
    Except PyError (List WarnTag × TrialsDefinitionsIterator) :=
  let n := cfg.numTrials?.getD 1
  let p := cfg.pre?.getD "trial_"
  match cfg.hparamsConfigs? with
  | none => .error (.assertionError "hparams_configs is not a key in trials_definitions.")
  | some hc =>
    .ok (cfg.extraKeys.map WarnTag.ignoredKey,
         { suggester := { gen := hc, idx := 0 }, numTrials := n, pre := p,
           trialCount := 0 })

/-! ## Claims -/

/-- C1: the claim says a clean close with a non-empty snapshot and
`already_runned` removes the old same-named record, persists the new record
and appends it, leaving exactly one entry of that name.  On the code this
fails: `fetch_trial_results` is `Experiment.get_results`, whose snapshot has
no `training_history` key, so `trial_results["training_history"]` raises
`KeyError` after `_remove_trial` already ran — the old record is gone, no
file is written, nothing is appended, and no entry of that name remains. -/
theorem trialExit_overwrite_raises_trainingHistory_keyError :
    (trialExit none 25
      ⟨"trial1", some 10, none, "/e/trial1", none, none, none, none⟩
      true
      (getResults [] [("accuracy", 2)])
      [⟨"trial1", some 0, some 3, "/e/trial1", none, some [], some [("accuracy", 1)], none⟩]
      [("/e/trial1/trial_info.json", [("name", .str "trial1")])]).error?
        = some (.keyError "training_history") ∧
    (trialExit none 25
      ⟨"trial1", some 10, none, "/e/trial1", none, none, none, none⟩
      true
      (getResults [] [("accuracy", 2)])
      [⟨"trial1", some 0, some 3, "/e/trial1", none, some [], some [("accuracy", 1)], none⟩]
      [("/e/trial1/trial_info.json", [("name", .str "trial1")])]).trials = [] ∧
    (trialExit none 25
      ⟨"trial1", some 10, none, "/e/trial1", none, none, none, none⟩
      true
      (getResults [] [("accuracy", 2)])
      [⟨"trial1", some 0, some 3, "/e/trial1", none, some [], some [("accuracy", 1)], none⟩]
      [("/e/trial1/trial_info.json", [("name", .str "trial1")])]).wrote = false ∧
    (trialExit none 25
      ⟨"trial1", some 10, none, "/e/trial1", none, none, none, none⟩
      true
      (getResults [] [("accuracy", 2)])
      [⟨"trial1", some 0, some 3, "/e/trial1", none, some [], some [("accuracy", 1)], none⟩]
      [("/e/trial1/trial_info.json", [("name", .str "trial1")])]).fs
        = [("/e/trial1/trial_info.json", [("name", .str "trial1")])] :=
  ⟨rfl, rfl, rfl, rfl⟩

/-- C2: closing a trial cleanly with an all-empty result snapshot while
`already_runned` is set warns and changes nothing: no exception, the
filesystem (hence the old `trial_info.json`) is untouched, the parent's
trial list is unchanged and nothing is written. -/
theorem trialExit_empty_alreadyRun_skips (now : Nat) (t : TrialData)
    (snapshot : Dict ResVal) (trials : List TrialData) (fs : Dict (Dict JVal))
    (hempty : snapshot.all (fun kv => kv.2.isEmptyDict) = true) :
    (trialExit none now t true snapshot trials fs).error? = none ∧
    (trialExit none now t true snapshot trials fs).fs = fs ∧
    (trialExit none now t true snapshot trials fs).trials = trials ∧
    (trialExit none now t true snapshot trials fs).wrote = false ∧
    (trialExit none now t true snapshot trials fs).warnings = [.skipAlreadyRun] := by
  refine ⟨?_, ?_, ?_, ?_, ?_⟩ <;> simp [trialExit, hempty]

/-- Witness for C2 at a concrete skip: snapshot from `get_results` with both
slots empty, one retained trial. -/
theorem trialExit_empty_alreadyRun_skips_witness :
    ((getResults [] []).all (fun kv => kv.2.isEmptyDict) = true) ∧
    ((trialExit none 9
        ⟨"trial1", some 4, none, "/e/trial1", none, none, none, none⟩
        true (getResults [] [])
        [⟨"trial1", some 0, some 3, "/e/trial1", none, some [], some [("accuracy", 1)], none⟩]
        []).error? = none ∧
     (trialExit none 9
        ⟨"trial1", some 4, none, "/e/trial1", none, none, none, none⟩
        true (getResults [] [])
        [⟨"trial1", some 0, some 3, "/e/trial1", none, some [], some [("accuracy", 1)], none⟩]
        []).fs = [] ∧
     (trialExit none 9
        ⟨"trial1", some 4, none, "/e/trial1", none, none, none, none⟩
        true (getResults [] [])
        [⟨"trial1", some 0, some 3, "/e/trial1", none, some [], some [("accuracy", 1)], none⟩]
        []).trials
        = [⟨"trial1", some 0, some 3, "/e/trial1", none, some [], some [("accuracy", 1)], none⟩] ∧
     (trialExit none 9
        ⟨"trial1", some 4, none, "/e/trial1", none, none, none, none⟩
        true (getResults [] [])
        [⟨"trial1", some 0, some 3, "/e/trial1", none, some [], some [("accuracy", 1)], none⟩]
        []).wrote = false ∧
     (trialExit none 9
        ⟨"trial1", some 4, none, "/e/trial1", none, none, none, none⟩
        true (getResults [] [])
        [⟨"trial1", some 0, some 3, "/e/trial1", none, some [], some [("accuracy", 1)], none⟩]
        []).warnings = [.skipAlreadyRun]) :=
  ⟨rfl, trialExit_empty_alreadyRun_skips 9
    ⟨"trial1", some 4, none, "/e/trial1", none, none, none, none⟩
    (getResults [] [])
    [⟨"trial1", some 0, some 3, "/e/trial1", none, some [], some [("accuracy", 1)], none⟩]
    [] rfl⟩

/-- C3: on an abnormal experiment-scope exit, `Experiment.__exit__`
re-raises the fault wrapped in an `ExperimentError`, writes no
`experiment_info.json` and creates no report. -/
theorem experimentExit_abnormal_wraps_and_persists_nothing (f : PyExc) (now : Nat)
    (e : ExperimentData) :
    (experimentExit (some f) now e).error?
        = some (.experimentError "An error occurred during the experiment." f) ∧
    (experimentExit (some f) now e).wroteInfo = none ∧
    (experimentExit (some f) now e).reportCreated = false := by
  refine ⟨?_, ?_, ?_⟩ <;> simp [experimentExit]

/-- Witness for C3 at a concrete abnormal exit. -/
theorem experimentExit_abnormal_wraps_and_persists_nothing_witness :
    (experimentExit (some ⟨"ValueError", "boom"⟩) 30
        ⟨"exp1", "d", some 2, none, "/base/exp1", []⟩).error?
        = some (.experimentError "An error occurred during the experiment."
            ⟨"ValueError", "boom"⟩) ∧
    (experimentExit (some ⟨"ValueError", "boom"⟩) 30
        ⟨"exp1", "d", some 2, none, "/base/exp1", []⟩).wroteInfo = none ∧
    (experimentExit (some ⟨"ValueError", "boom"⟩) 30
        ⟨"exp1", "d", some 2, none, "/base/exp1", []⟩).reportCreated = false :=
  experimentExit_abnormal_wraps_and_persists_nothing ⟨"ValueError", "boom"⟩ 30
    ⟨"exp1", "d", some 2, none, "/base/exp1", []⟩

/-- C4: the claim says constructing a trial in an experiment opened over a
directory with persisted trial records pre-loads that state, so a
same-named trial gets `already_runned = true`.  On the code this fails:
`Experiment.__init__` initializes `experiment_data["trials"]` to `[]` and
never reads the disk, so `_check_if_already_runned` is `False` even with a
persisted same-named record (additionally, `Experiment.trial` passes four
arguments to the three-parameter `Trial.__init__`, a `TypeError`). -/
theorem experimentInit_ignores_persisted_trials :
    ((experimentInit ["/base/exp", "/base/exp/trial1"]
        [⟨"trial1", some 0, some 3, "/base/exp/trial1", none, some [],
          some [("accuracy", 1)], none⟩]
        "/base" "exp" "d").1).trials = [] ∧
    checkIfAlreadyRunned "trial1"
      ((experimentInit ["/base/exp", "/base/exp/trial1"]
        [⟨"trial1", some 0, some 3, "/base/exp/trial1", none, some [],
          some [("accuracy", 1)], none⟩]
        "/base" "exp" "d").1).trials = false :=
  ⟨rfl, rfl⟩

/-- C5: the claim says the persisted `trial_info.json` excludes
`training_history` and follows the schema `{name, description, start_time,
duration, directory, hyperparameters, figures, evaluation_metrics}`.  On the
code this fails: `_write_trial_data` only copies `trial_data` (its
`# Remove history` comment is not acted on), so the dumped document carries
the `training_history` key — and `trial_data` has no `description` key at
all. -/
theorem writeTrialData_emits_training_history_key :
    "training_history" ∈ (writeTrialData
        ⟨"trial1", some 0, some 3, "/e/trial1", some [("lr", .pyint 1)],
         some [("fig", "/e/trial1/fig.png")], some [("accuracy", 1)],
         some [("loss", [3, 2])]⟩).doc.map Prod.fst ∧
    dictGet? (writeTrialData
        ⟨"trial1", some 0, some 3, "/e/trial1", some [("lr", .pyint 1)],
         some [("fig", "/e/trial1/fig.png")], some [("accuracy", 1)],
         some [("loss", [3, 2])]⟩).doc "training_history"
      = some (.obj [("loss", .arr [.num 3, .num 2])]) ∧
    "description" ∉ (writeTrialData
        ⟨"trial1", some 0, some 3, "/e/trial1", some [("lr", .pyint 1)],
         some [("fig", "/e/trial1/fig.png")], some [("accuracy", 1)],
         some [("loss", [3, 2])]⟩).doc.map Prod.fst := by
  refine ⟨?_, rfl, ?_⟩ <;> decide

/-- C7: when the hyperparameters cannot be JSON-serialized, the write warns,
substitutes `null` for the hyperparameters field and still writes the
document with every remaining field intact. -/
theorem writeTrialData_unserializable_hyperparameters_degrade (t : TrialData)
    (h : hyperparametersToJson? t.hyperparameters = none) :
    (writeTrialData t).warned = true ∧
    dictGet? (writeTrialData t).doc "hyperparameters" = some .null ∧
    dictGet? (writeTrialData t).doc "name" = some (.str t.name) ∧
    dictGet? (writeTrialData t).doc "start_time" = some (jOptNat t.start_time) ∧
    dictGet? (writeTrialData t).doc "duration" = some (jOptNat t.duration) ∧
    dictGet? (writeTrialData t).doc "directory" = some (.str t.directory) ∧
    dictGet? (writeTrialData t).doc "figures" = some (jOptStrDict t.figures) ∧
    dictGet? (writeTrialData t).doc "evaluation_metrics"
      = some (jOptRatDict t.evaluation_metrics) ∧
    dictGet? (writeTrialData t).doc "training_history"
      = some (jOptHistDict t.training_history) := by
  refine ⟨?_, ?_, ?_, ?_, ?_, ?_, ?_, ?_, ?_⟩ <;>
    simp [writeTrialData, h, trialDoc, dictGet?]

/-- Witness for C7: hyperparameters holding a function object. -/
theorem writeTrialData_unserializable_hyperparameters_degrade_witness :
    (hyperparametersToJson? (some [("callback", PyLeaf.func 0)]) = none) ∧
    ((writeTrialData ⟨"trial1", some 0, some 3, "/e/trial1",
        some [("callback", PyLeaf.func 0)], some [], some [("accuracy", 1)],
        none⟩).warned = true ∧
     dictGet? (writeTrialData ⟨"trial1", some 0, some 3, "/e/trial1",
        some [("callback", PyLeaf.func 0)], some [], some [("accuracy", 1)],
        none⟩).doc "hyperparameters" = some .null ∧
     dictGet? (writeTrialData ⟨"trial1", some 0, some 3, "/e/trial1",
        some [("callback", PyLeaf.func 0)], some [], some [("accuracy", 1)],
        none⟩).doc "name" = some (.str "trial1")) :=
  ⟨rfl,
   (writeTrialData_unserializable_hyperparameters_degrade
      ⟨"trial1", some 0, some 3, "/e/trial1", some [("callback", PyLeaf.func 0)],
       some [], some [("accuracy", 1)], none⟩ rfl).1,
   (writeTrialData_unserializable_hyperparameters_degrade
      ⟨"trial1", some 0, some 3, "/e/trial1", some [("callback", PyLeaf.func 0)],
       some [], some [("accuracy", 1)], none⟩ rfl).2.1,
   (writeTrialData_unserializable_hyperparameters_degrade
      ⟨"trial1", some 0, some 3, "/e/trial1", some [("callback", PyLeaf.func 0)],
       some [], some [("accuracy", 1)], none⟩ rfl).2.2.1⟩

/-- C8: the resolved experiment directory is a deterministic function of the
resolved base path and the name alone (in particular it does not depend on
what already exists on disk), spaces in the name are normalized to
underscores, and creating the directory preserves everything already
present (`exist_ok=True`). -/
theorem makeExperimentDirectory_deterministic_and_nondestructive
    (fs1 fs2 : List String) (base name : String) :
    (makeExperimentDirectoryFS fs1 base name).1
      = (makeExperimentDirectoryFS fs2 base name).1 ∧
    (∀ p, p ∈ fs1 → p ∈ (makeExperimentDirectoryFS fs1 base name).2) ∧
    (∀ c, c ∈ (normalizeName name).data → c ≠ ' ') := by
  refine ⟨rfl, ?_, ?_⟩
  · intro p hp
    simp only [makeExperimentDirectoryFS, makedirsExistOk]
    split
    · exact hp
    · exact List.mem_cons_of_mem _ hp
  · intro c hc
    have hc' : c ∈ name.data.map (fun a => if a = ' ' then '_' else a) := hc
    obtain ⟨a, -, rfl⟩ := List.mem_map.mp hc'
    by_cases ha : a = ' '
    · simp [ha]
    · simp [ha]

/-- Witness for C8: two constructions of experiment "my exp" over base
"/b", the first over a filesystem already holding "/b/keep". -/
theorem makeExperimentDirectory_deterministic_and_nondestructive_witness :
    (("/b/keep" ∈ (["/b/keep"] : List String)) ∧
     (makeExperimentDirectoryFS ["/b/keep"] "/b" "my exp").1
       = (makeExperimentDirectoryFS [] "/b" "my exp").1 ∧
     "/b/keep" ∈ (makeExperimentDirectoryFS ["/b/keep"] "/b" "my exp").2 ∧
     (makeExperimentDirectoryFS ["/b/keep"] "/b" "my exp").1 = "/b/my_exp") :=
  ⟨List.mem_singleton.mpr rfl,
   (makeExperimentDirectory_deterministic_and_nondestructive
      ["/b/keep"] [] "/b" "my exp").1,
   (makeExperimentDirectory_deterministic_and_nondestructive
      ["/b/keep"] [] "/b" "my exp").2.1 "/b/keep" (List.mem_singleton.mpr rfl),
   rfl⟩

/-- Closed form of `iterTake` from an arbitrary cursor position: with enough
fuel the iterator yields one descriptor per remaining count, named by the
1-based ordinal. -/
theorem iterTake_spec (fuel : Nat) :
    ∀ (n c i : Nat) (p : String) (g : Nat → Dict PyLeaf),
    c ≤ n → n - c ≤ fuel →
    iterTake fuel ⟨⟨g, i⟩, n, p, c⟩ =
      (List.range (n - c)).map
        (fun j => ⟨p ++ toString (c + j + 1), g (i + j)⟩) := by
  induction fuel with
  | zero =>
    intro n c i p g hc hf
    have h0 : n - c = 0 := Nat.le_zero.mp hf
    simp [iterTake, h0]
  | succ fuel ih =>
    intro n c i p g hc hf
    by_cases hcn : c = n
    · subst hcn
      simp [iterTake, iterNext, Nat.sub_self]
    · have hlt : c < n := lt_of_le_of_ne hc hcn
      have step : iterNext ⟨⟨g, i⟩, n, p, c⟩ =
          some (⟨p ++ toString (c + 1), g i⟩, ⟨⟨g, i + 1⟩, n, p, c + 1⟩) := by
        simp [iterNext, suggestNext, hcn]
      rw [iterTake, step]
      dsimp only
      rw [ih n (c + 1) (i + 1) p g hlt (by omega)]
      have hnc : n - c = (n - (c + 1)) + 1 := by omega
      rw [hnc, List.range_succ_eq_map]
      simp only [List.map_cons, List.map_map]
      congr 1
      refine List.map_congr_left (fun j hj => ?_)
      simp only [Function.comp_apply]
      have h1 : c + 1 + j + 1 = c + (j + 1) + 1 := by omega
      have h2 : i + 1 + j = i + (j + 1) := by omega
      rw [h1, h2]

/-- After consuming all remaining items the cursor sits at `numTrials`. -/
theorem iterSteps_exhausts (k : Nat) :
    ∀ (c i n : Nat) (p : String) (g : Nat → Dict PyLeaf),
    c + k = n →
    iterSteps k ⟨⟨g, i⟩, n, p, c⟩ = ⟨⟨g, i + k⟩, n, p, n⟩ := by
  induction k with
  | zero =>
    intro c i n p g h
    have : c = n := by omega
    subst this
    rfl
  | succ k ih =>
    intro c i n p g h
    have hcn : c ≠ n := by omega
    have step : iterNext ⟨⟨g, i⟩, n, p, c⟩ =
        some (⟨p ++ toString (c + 1), g i⟩, ⟨⟨g, i + 1⟩, n, p, c + 1⟩) := by
      simp [iterNext, suggestNext, hcn]
    rw [iterSteps, step]
    dsimp only
    rw [ih (c + 1) (i + 1) n p g (by omega)]
    have h2 : i + 1 + k = i + (k + 1) := by omega
    rw [h2]

/-- C9: the generator-configured stream yields exactly `numTrials`
descriptors, named `pre` followed by the 1-based ordinal, and is then
exhausted: the next call signals end-of-iteration (`none`, modelling
`StopIteration`) rather than a sentinel descriptor.  The configuration
processor defaults the name stem to `"trial_"` when no `prefix` key is
given. -/
theorem trialsDefinitionsIterator_yields_exactly_numTrials
    (n : Nat) (p : String) (g : Nat → Dict PyLeaf) (fuel : Nat) (hfuel : n ≤ fuel) :
    iterTake fuel ⟨⟨g, 0⟩, n, p, 0⟩ =
      (List.range n).map (fun i => ⟨p ++ toString (i + 1), g i⟩) ∧
    iterNext (iterSteps n ⟨⟨g, 0⟩, n, p, 0⟩) = none ∧
    (∀ (extras : List String),
      processTrialsGenConfig ⟨some n, none, some g, extras⟩ =
        .ok (extras.map WarnTag.ignoredKey, ⟨⟨g, 0⟩, n, "trial_", 0⟩)) := by
  refine ⟨?_, ?_, fun extras => rfl⟩
  · have := iterTake_spec fuel n 0 0 p g (Nat.zero_le n) (by omega)
    simpa using this
  · rw [iterSteps_exhausts n 0 0 n p g (by omega)]
    simp [iterNext]

/-- Witness for C9 at the spec scenario `num_trials = 3` with the default
name stem. -/
theorem trialsDefinitionsIterator_yields_exactly_numTrials_witness :
    ((3 : Nat) ≤ 3 ∧
     processTrialsGenConfig
        ⟨some 3, none, some (fun k => [("lr", .pyint (k : Int))]), []⟩ =
        .ok ([], ⟨⟨fun k => [("lr", .pyint (k : Int))], 0⟩, 3, "trial_", 0⟩) ∧
     iterTake 3 ⟨⟨fun k => [("lr", .pyint (k : Int))], 0⟩, 3, "trial_", 0⟩ =
       [⟨"trial_1", [("lr", .pyint 0)]⟩,
        ⟨"trial_2", [("lr", .pyint 1)]⟩,
        ⟨"trial_3", [("lr", .pyint 2)]⟩] ∧
     iterNext (iterSteps 3 ⟨⟨fun k => [("lr", .pyint (k : Int))], 0⟩, 3, "trial_", 0⟩)
       = none) := by
  refine ⟨by omega, ?_, ?_, ?_⟩
  · exact ((trialsDefinitionsIterator_yields_exactly_numTrials 3 "trial_"
      (fun k => [("lr", .pyint (k : Int))]) 3 (by omega)).2.2 [])
  · rw [(trialsDefinitionsIterator_yields_exactly_numTrials 3 "trial_"
      (fun k => [("lr", .pyint (k : Int))]) 3 (by omega)).1]
    rfl
  · exact (trialsDefinitionsIterator_yields_exactly_numTrials 3 "trial_"
      (fun k => [("lr", .pyint (k : Int))]) 3 (by omega)).2.1

instance : IsTotal (ℚ × TrialData) accDescRel := ⟨fun a b => le_total b.1 a.1⟩

instance : IsTrans (ℚ × TrialData) accDescRel := ⟨fun _ _ _ hab hbc => le_trans hbc hab⟩

/-- Decoration succeeds when every trial's key lookup succeeds. -/
theorem decorateTrials_ok (acc : TrialData → ℚ) :
    ∀ l : List TrialData, (∀ t ∈ l, accuracyKey t = .ok (acc t)) →
    decorateTrials l = .ok (l.map (fun t => (acc t, t))) := by
  intro l
  induction l with
  | nil => intro _; rfl
  | cons t ts ih =>
    intro h
    have ht := h t (List.mem_cons_self t ts)
    have hts := ih (fun u hu => h u (List.mem_cons_of_mem t hu))
    simp [decorateTrials, ht, hts]

/-- Decoration raises `KeyError "accuracy"` when every metrics slot is
populated and some trial lacks the key. -/
theorem decorateTrials_keyError :
    ∀ l : List TrialData,
    (∀ t ∈ l, t.evaluation_metrics ≠ none) →
    (∃ t ∈ l, accuracyKey t = .error (.keyError "accuracy")) →
    decorateTrials l = .error (.keyError "accuracy") := by
  intro l
  induction l with
  | nil =>
    intro _ hex
    simp at hex
  | cons t ts ih =>
    intro hsome hex
    cases hacc : accuracyKey t with
    | error e =>
      have he : e = .keyError "accuracy" := by
        have hmet := hsome t (List.mem_cons_self t ts)
        cases hm : t.evaluation_metrics with
        | none => exact absurd hm hmet
        | some d =>
          rw [accuracyKey, hm] at hacc
          dsimp only at hacc
          cases hg : dictGet? d "accuracy" with
          | none =>
            rw [hg] at hacc
            exact (Except.error.injEq _ _).mp hacc.symm
          | some q =>
            rw [hg] at hacc
            exact absurd hacc (by simp)
      subst he
      simp [decorateTrials, hacc]
    | ok q =>
      obtain ⟨u, hu, herr⟩ := hex
      rcases List.mem_cons.mp hu with h1 | h2
      · subst h1
        rw [hacc] at herr
        exact absurd herr (by simp)
      · have hts := ih (fun v hv => hsome v (List.mem_cons_of_mem t hv)) ⟨u, h2, herr⟩
        simp [decorateTrials, hacc, hts]

/-- Closed form of `sortTrials` on an all-keys-present list. -/
theorem sortTrials_ok (l : List TrialData) (acc : TrialData → ℚ)
    (h : ∀ t ∈ l, accuracyKey t = .ok (acc t)) :
    sortTrials l =
      .ok (((l.map (fun t => (acc t, t))).insertionSort accDescRel).map Prod.snd) := by
  unfold sortTrials
  split
  · rename_i hl
    rw [hl]
    rfl
  · rw [decorateTrials_ok acc l h]
    rfl

/-- Stability of insertion sort, filter form: a tie class (any two of its
members related both ways) appears in the sorted output exactly as in the
input. -/
theorem insertionSort_filter_ties {α : Type} (r : α → α → Prop) [DecidableRel r]
    (P : α → Bool) (l : List α)
    (hP : ∀ a ∈ l, ∀ b ∈ l, P a → P b → r a b) :
    (l.insertionSort r).filter P = l.filter P := by
  have hpair : (l.filter P).Pairwise r := by
    rw [List.pairwise_iff_forall_sublist]
    intro a b hab
    have ha : a ∈ l.filter P := hab.subset (by simp)
    have hb : b ∈ l.filter P := hab.subset (by simp)
    obtain ⟨hal, haP⟩ := List.mem_filter.mp ha
    obtain ⟨hbl, hbP⟩ := List.mem_filter.mp hb
    exact hP a hal b hbl haP hbP
  have hsub : List.Sublist (l.filter P) (l.insertionSort r) :=
    List.sublist_insertionSort hpair (List.filter_sublist l)
  have hsub2 : List.Sublist ((l.filter P).filter P) ((l.insertionSort r).filter P) :=
    hsub.filter P
  have heq : (l.filter P).filter P = l.filter P :=
    List.filter_eq_self.mpr (fun a ha => (List.mem_filter.mp ha).2)
  rw [heq] at hsub2
  have hlen : ((l.insertionSort r).filter P).length = (l.filter P).length := by
    rw [← List.countP_eq_length_filter, ← List.countP_eq_length_filter]
    exact (List.perm_insertionSort r l).countP_eq P
  exact (hsub2.eq_of_length hlen.symm).symm

/-- C10: a clean experiment close succeeds only when every retained trial's
metrics contain the key `"accuracy"`: with a non-empty trial list where some
trial's (populated) metrics lack the key, the sort raises `KeyError` and the
close does not complete (no report); with an empty list the sort is skipped
and the close succeeds. -/
theorem experimentExit_accuracy_key_precondition (now : Nat) (e : ExperimentData) :
    (e.trials ≠ [] →
     (∀ t ∈ e.trials, t.evaluation_metrics ≠ none) →
     (∃ t ∈ e.trials, ∃ d, t.evaluation_metrics = some d ∧
        dictGet? d "accuracy" = none) →
     (experimentExit none now e).error? = some (.keyError "accuracy") ∧
     (experimentExit none now e).reportCreated = false) ∧
    (e.trials = [] →
     (experimentExit none now e).error? = none ∧
     (experimentExit none now e).reportCreated = true) := by
  constructor
  · intro hne hsome hex
    have hkey : ∃ t ∈ e.trials, accuracyKey t = .error (.keyError "accuracy") := by
      obtain ⟨t, ht, d, hd, hg⟩ := hex
      refine ⟨t, ht, ?_⟩
      rw [accuracyKey, hd]
      dsimp only
      rw [hg]
    have hdec := decorateTrials_keyError e.trials hsome hkey
    have hsort : sortTrials e.trials = .error (.keyError "accuracy") := by
      unfold sortTrials
      split
      · rename_i h
        exact absurd h hne
      · rw [hdec]
        rfl
    constructor <;> simp [experimentExit, hsort]
  · intro hnil
    have hsort : sortTrials e.trials = .ok e.trials := by
      unfold sortTrials
      rw [if_pos hnil]
    constructor <;> simp [experimentExit, hnil, sortTrials, createExperimentReport]

/-- Witness for C10: a one-trial experiment whose trial has metrics
`{"loss": 1}` (no `"accuracy"`), and an empty experiment. -/
theorem experimentExit_accuracy_key_precondition_witness :
    ((experimentExit none 8
        ⟨"exp1", "d", some 2, none, "/b/exp1",
         [⟨"t1", some 0, some 1, "/b/exp1/t1", none, some [],
           some [("loss", 1)], none⟩]⟩).error?
        = some (.keyError "accuracy") ∧
     (experimentExit none 8
        ⟨"exp1", "d", some 2, none, "/b/exp1",
         [⟨"t1", some 0, some 1, "/b/exp1/t1", none, some [],
           some [("loss", 1)], none⟩]⟩).reportCreated = false) ∧
    ((experimentExit none 8
        ⟨"exp1", "d", some 2, none, "/b/exp1", []⟩).error? = none ∧
     (experimentExit none 8
        ⟨"exp1", "d", some 2, none, "/b/exp1", []⟩).reportCreated = true) :=
  ⟨(experimentExit_accuracy_key_precondition 8
      ⟨"exp1", "d", some 2, none, "/b/exp1",
       [⟨"t1", some 0, some 1, "/b/exp1/t1", none, some [],
         some [("loss", 1)], none⟩]⟩).1
      (by decide)
      (by decide)
      ⟨⟨"t1", some 0, some 1, "/b/exp1/t1", none, some [],
         some [("loss", 1)], none⟩, List.mem_singleton.mpr rfl,
        [("loss", 1)], rfl, rfl⟩,
   (experimentExit_accuracy_key_precondition 8
      ⟨"exp1", "d", some 2, none, "/b/exp1", []⟩).2 rfl⟩

/-- C6 counterexample: at the claim's own scenario (`trial_a`, accuracy
0.9, recorded before `trial_b`, accuracy 0.95) a clean-exit close does not
complete: after the sort, `create_experiment_report` evaluates
`trial["description"]`, a key the trial dicts never have, so the close
raises `KeyError("description")` and no report is saved — refuting the
claim's reading that such an experiment closes cleanly. -/
theorem experimentExit_scenario_report_keyError :
    (experimentExit none 9
       ⟨"exp1", "d", some 2, none, "/b/exp1",
        [⟨"trial_a", some 0, some 1, "/b/exp1/trial_a", none, some [],
           some [("accuracy", mkRat 9 10)], none⟩,
         ⟨"trial_b", some 0, some 1, "/b/exp1/trial_b", none, some [],
           some [("accuracy", mkRat 95 100)], none⟩]⟩).error?
      = some (.keyError "description") ∧
    (experimentExit none 9
       ⟨"exp1", "d", some 2, none, "/b/exp1",
        [⟨"trial_a", some 0, some 1, "/b/exp1/trial_a", none, some [],
           some [("accuracy", mkRat 9 10)], none⟩,
         ⟨"trial_b", some 0, some 1, "/b/exp1/trial_b", none, some [],
           some [("accuracy", mkRat 95 100)], none⟩]⟩).reportCreated = false ∧
    (experimentExit none 9
       ⟨"exp1", "d", some 2, none, "/b/exp1",
        [⟨"trial_a", some 0, some 1, "/b/exp1/trial_a", none, some [],
           some [("accuracy", mkRat 9 10)], none⟩,
         ⟨"trial_b", some 0, some 1, "/b/exp1/trial_b", none, some [],
           some [("accuracy", mkRat 95 100)], none⟩]⟩).expData.trials =
      [⟨"trial_b", some 0, some 1, "/b/exp1/trial_b", none, some [],
         some [("accuracy", mkRat 95 100)], none⟩,
       ⟨"trial_a", some 0, some 1, "/b/exp1/trial_a", none, some [],
         some [("accuracy", mkRat 9 10)], none⟩] :=
  ⟨rfl, rfl, rfl⟩

/-- C6 (amended): on a clean-exit close where every trial carries the
`accuracy` metric, the collection is left stably sorted by descending
accuracy — pairwise descending, a permutation of the pre-close collection,
tie classes kept in insertion order — and completion depends on the
collection: when it is empty the close succeeds and the report is saved;
when it is non-empty the report renderer raises `KeyError("description")`
after the sort, so the close errors and no report is saved. -/
theorem experimentExit_sorts_then_report_keyError (now : Nat) (e : ExperimentData)
    (acc : TrialData → ℚ) (hacc : ∀ t ∈ e.trials, accuracyKey t = .ok (acc t)) :
    ((experimentExit none now e).expData.trials).Pairwise
      (fun a b => acc b ≤ acc a) ∧
    List.Perm ((experimentExit none now e).expData.trials) e.trials ∧
    (∀ q : ℚ, ((experimentExit none now e).expData.trials).filter
        (fun t => decide (acc t = q))
      = e.trials.filter (fun t => decide (acc t = q))) ∧
    (e.trials = [] → (experimentExit none now e).error? = none ∧
      (experimentExit none now e).reportCreated = true) ∧
    (e.trials ≠ [] →
      (experimentExit none now e).error? = some (.keyError "description") ∧
      (experimentExit none now e).reportCreated = false) := by
  have hsort := sortTrials_ok e.trials acc hacc
  have hres : (experimentExit none now e).expData.trials =
      ((e.trials.map (fun t => (acc t, t))).insertionSort accDescRel).map Prod.snd := by
    cases hcr : createExperimentReport
        (((e.trials.map (fun t => (acc t, t))).insertionSort accDescRel).map
          Prod.snd) with
    | ok u => simp [experimentExit, hsort, hcr]
    | error err => simp [experimentExit, hsort, hcr]
  have hlen : (((e.trials.map (fun t => (acc t, t))).insertionSort
      accDescRel).map Prod.snd).length = e.trials.length := by
    simp [List.length_insertionSort]
  have hmem : ∀ p ∈ (e.trials.map (fun t => (acc t, t))).insertionSort accDescRel,
      p.1 = acc p.2 := by
    intro p hp
    have hpd : p ∈ e.trials.map (fun t => (acc t, t)) :=
      (List.mem_insertionSort accDescRel).mp hp
    obtain ⟨t, -, rfl⟩ := List.mem_map.mp hpd
    rfl
  refine ⟨?_, ?_, ?_, ?_, ?_⟩
  · rw [hres, List.pairwise_map]
    have hs : ((e.trials.map (fun t => (acc t, t))).insertionSort
        accDescRel).Pairwise accDescRel :=
      List.sorted_insertionSort accDescRel (e.trials.map (fun t => (acc t, t)))
    refine hs.imp_of_mem ?_
    intro a b ha hb hab
    have h1 := hmem a ha
    have h2 := hmem b hb
    rw [← h1, ← h2]
    exact hab
  · rw [hres]
    have hperm : List.Perm
        ((e.trials.map (fun t => (acc t, t))).insertionSort accDescRel)
        (e.trials.map (fun t => (acc t, t))) :=
      List.perm_insertionSort accDescRel _
    have h2 := hperm.map Prod.snd
    have h3 : (e.trials.map (fun t => (acc t, t))).map Prod.snd = e.trials := by
      rw [List.map_map]
      have hid : (Prod.snd ∘ fun t : TrialData => (acc t, t)) = id := rfl
      rw [hid, List.map_id]
    rwa [h3] at h2
  · intro q
    rw [hres]
    have hfm : (((e.trials.map (fun t => (acc t, t))).insertionSort
          accDescRel).map Prod.snd).filter (fun t => decide (acc t = q))
        = (((e.trials.map (fun t => (acc t, t))).insertionSort
            accDescRel).filter (fun p => decide (acc p.2 = q))).map Prod.snd := by
      rw [List.filter_map]
      rfl
    have hfd : e.trials.filter (fun t => decide (acc t = q))
        = ((e.trials.map (fun t => (acc t, t))).filter
            (fun p => decide (acc p.2 = q))).map Prod.snd := by
      rw [List.filter_map, List.map_map]
      have hid : (Prod.snd ∘ fun t : TrialData => (acc t, t)) = id := rfl
      rw [hid, List.map_id]
      rfl
    rw [hfm, hfd]
    congr 1
    apply insertionSort_filter_ties
    intro a ha b hb hPa hPb
    have h1 : a.1 = acc a.2 := by
      obtain ⟨t, -, rfl⟩ := List.mem_map.mp ha
      rfl
    have h2 : b.1 = acc b.2 := by
      obtain ⟨t, -, rfl⟩ := List.mem_map.mp hb
      rfl
    have ha2 : acc a.2 = q := of_decide_eq_true hPa
    have hb2 : acc b.2 = q := of_decide_eq_true hPb
    show b.1 ≤ a.1
    rw [h1, h2, ha2, hb2]
  · intro hnil
    have hL : ((e.trials.map (fun t => (acc t, t))).insertionSort
        accDescRel).map Prod.snd = [] := by
      rw [hnil]
      rfl
    have hcr : createExperimentReport
        (((e.trials.map (fun t => (acc t, t))).insertionSort accDescRel).map
          Prod.snd) = .ok () := by
      rw [hL]
      rfl
    constructor <;> simp [experimentExit, hsort, hcr]
  · intro hne
    have hLne : ((e.trials.map (fun t => (acc t, t))).insertionSort
        accDescRel).map Prod.snd ≠ [] := by
      intro h
      have hl := congrArg List.length h
      rw [hlen] at hl
      exact hne (List.eq_nil_of_length_eq_zero (by simpa using hl))
    have hcr : createExperimentReport
        (((e.trials.map (fun t => (acc t, t))).insertionSort accDescRel).map
          Prod.snd) = .error (.keyError "description") := by
      cases hL : ((e.trials.map (fun t => (acc t, t))).insertionSort
          accDescRel).map Prod.snd with
      | nil => exact absurd hL hLne
      | cons a as => rfl
    constructor <;> simp [experimentExit, hsort, hcr]

/-- Witness for C6 (amended) at the scenario: `trial_a` (accuracy 0.9)
recorded before `trial_b` (accuracy 0.95); the close sorts the collection
to `[trial_b, trial_a]`, then raises `KeyError("description")` from the
report renderer and saves no report. -/
theorem experimentExit_sorts_then_report_keyError_witness :
    ((∀ t ∈ ([⟨"trial_a", some 0, some 1, "/b/exp1/trial_a", none, some [],
          some [("accuracy", mkRat 9 10)], none⟩,
        ⟨"trial_b", some 0, some 1, "/b/exp1/trial_b", none, some [],
          some [("accuracy", mkRat 95 100)], none⟩] : List TrialData),
        accuracyKey t =
          .ok ((dictGet? (t.evaluation_metrics.getD []) "accuracy").getD 0)) ∧
     ([⟨"trial_a", some 0, some 1, "/b/exp1/trial_a", none, some [],
          some [("accuracy", mkRat 9 10)], none⟩,
       ⟨"trial_b", some 0, some 1, "/b/exp1/trial_b", none, some [],
          some [("accuracy", mkRat 95 100)], none⟩] : List TrialData) ≠ [] ∧
     (experimentExit none 9
        ⟨"exp1", "d", some 2, none, "/b/exp1",
         [⟨"trial_a", some 0, some 1, "/b/exp1/trial_a", none, some [],
            some [("accuracy", mkRat 9 10)], none⟩,
          ⟨"trial_b", some 0, some 1, "/b/exp1/trial_b", none, some [],
            some [("accuracy", mkRat 95 100)], none⟩]⟩).error?
       = some (.keyError "description") ∧
     (experimentExit none 9
        ⟨"exp1", "d", some 2, none, "/b/exp1",
         [⟨"trial_a", some 0, some 1, "/b/exp1/trial_a", none, some [],
            some [("accuracy", mkRat 9 10)], none⟩,
          ⟨"trial_b", some 0, some 1, "/b/exp1/trial_b", none, some [],
            some [("accuracy", mkRat 95 100)], none⟩]⟩).reportCreated = false ∧
     (experimentExit none 9
        ⟨"exp1", "d", some 2, none, "/b/exp1",
         [⟨"trial_a", some 0, some 1, "/b/exp1/trial_a", none, some [],
            some [("accuracy", mkRat 9 10)], none⟩,
          ⟨"trial_b", some 0, some 1, "/b/exp1/trial_b", none, some [],
            some [("accuracy", mkRat 95 100)], none⟩]⟩).expData.trials =
       [⟨"trial_b", some 0, some 1, "/b/exp1/trial_b", none, some [],
          some [("accuracy", mkRat 95 100)], none⟩,
        ⟨"trial_a", some 0, some 1, "/b/exp1/trial_a", none, some [],
          some [("accuracy", mkRat 9 10)], none⟩]) :=
  ⟨by decide, by decide,
   ((experimentExit_sorts_then_report_keyError 9
      ⟨"exp1", "d", some 2, none, "/b/exp1",
       [⟨"trial_a", some 0, some 1, "/b/exp1/trial_a", none, some [],
          some [("accuracy", mkRat 9 10)], none⟩,
        ⟨"trial_b", some 0, some 1, "/b/exp1/trial_b", none, some [],
          some [("accuracy", mkRat 95 100)], none⟩]⟩
      (fun t => (dictGet? (t.evaluation_metrics.getD []) "accuracy").getD 0)
      (by decide)).2.2.2.2 (by decide)).1,
   ((experimentExit_sorts_then_report_keyError 9
      ⟨"exp1", "d", some 2, none, "/b/exp1",
       [⟨"trial_a", some 0, some 1, "/b/exp1/trial_a", none, some [],
          some [("accuracy", mkRat 9 10)], none⟩,
        ⟨"trial_b", some 0, some 1, "/b/exp1/trial_b", none, some [],
          some [("accuracy", mkRat 95 100)], none⟩]⟩
      (fun t => (dictGet? (t.evaluation_metrics.getD []) "accuracy").getD 0)
      (by decide)).2.2.2.2 (by decide)).2,
   rfl⟩

end ImageML
